import Mathlib

/-!
Shallow embedding of the supercontest scoring, ATS-grading, game-upsert and
week-resolution code (app/models.py, app/scoring.py, app/services/ats.py,
app/services/games_sync.py, app/services/week.py, app/services/week_utils.py).

Numeric conventions: Python ints become `Int`; Python `float` and `Decimal`
spread/margin values become `ℚ` (the float literals appearing in the code, such
as the comparison epsilon 1e-9, are exactly representable). Nullable columns
and in-memory `None` become `Option`. Database tables touched by the services
become `List` values with SQLAlchemy get/add/mutate modelled as find/append/
replace-in-place.
-/

namespace Supercontest

/-- ATS classification enum from app/models.py (ats_result_enum). -/
inductive ATSResult where
  | COVER
  | NO_COVER
  | PUSH
deriving DecidableEq, Repr

/-- Game model (app/models.py, class Game); only the columns the verified
services read or write. Timestamps are instants (seconds since epoch). -/
structure Game where
  id : Nat
  week : Option Int
  home_team : String
  away_team : String
  final_score_home : Option Int
  final_score_away : Option Int
  spread_home : Option ℚ
  spread_away : Option ℚ
  odds_event_id : Option String
  kickoff_at : Option Int
  spread_is_locked : Bool
deriving DecidableEq, Repr

/-- Pick model (app/models.py, class Pick); only chosen_team is read by scoring. -/
structure Pick where
  chosen_team : String
deriving DecidableEq, Repr

/-- TeamGameATS model (app/models.py). closing_spread is nullable in memory
(the grading code tests it against None) even though the column is NOT NULL. -/
structure TeamGameATS where
  game_id : Nat
  team : String
  opponent : String
  is_home : Bool
  closing_spread : Option ℚ
  line_source : Option String
  points_for : Option Int
  points_against : Option Int
  ats_result : Option ATSResult
  cover_margin : Option ℚ
deriving DecidableEq, Repr

/-- Result of the live spread classification in app/scoring.py. -/
inductive SpreadResult where
  | home
  | away
  | push
deriving DecidableEq, Repr

/-- The comparison epsilon 1e-9 from game_result_against_spread. -/
def eps : ℚ := 1 / 1000000000

/-- app/scoring.py game_result_against_spread: apply the spread only to the
favorite (negative side), derive a missing side from the other, compare the
adjusted scores with epsilon 1e-9. Returns none when either final score is
missing (game not graded). -/
def game_result_against_spread (game : Game) : Option SpreadResult :=
  match game.final_score_home, game.final_score_away with
  | some fsh, some fsa =>
    let home_score : ℚ := (fsh : ℚ)
    let away_score : ℚ := (fsa : ℚ)
    let sh0 := game.spread_home
    let sa0 := game.spread_away
    -- derive the missing side if only one is present (sequential, as in the code)
    let sh : Option ℚ :=
      match sh0, sa0 with
      | none, some sa => some (-sa)
      | _, _ => sh0
    let sa : Option ℚ :=
      match sa0, sh with
      | none, some s => some (-s)
      | _, _ => sa0
    let adj : ℚ × ℚ :=
      match sh, sa with
      | none, none => (home_score, away_score)
      | _, _ =>
        (home_score + (match sh with | some s => if s < 0 then s else 0 | none => 0),
         away_score + (match sa with | some s => if s < 0 then s else 0 | none => 0))
    some (if adj.1 > adj.2 + eps then SpreadResult.home
          else if adj.2 > adj.1 + eps then SpreadResult.away
          else SpreadResult.push)
  | _, _ => none

/-- app/scoring.py points_for_pick: 1.0 / 0.5 / 0.0, none if not graded.
A push pays 0.5 before the pick is even inspected; a chosen_team matching
neither team is counted as a loss. -/
def points_for_pick (pick : Pick) (game : Game) : Option ℚ :=
  match game_result_against_spread game with
  | none => none
  | some res =>
    if res = SpreadResult.push then some (1/2)
    else
      if pick.chosen_team = game.home_team then
        some (if SpreadResult.home = res then (1 : ℚ) else 0)
      else if pick.chosen_team = game.away_team then
        some (if SpreadResult.away = res then (1 : ℚ) else 0)
      else
        some 0

/-! ### app/services/ats.py

The TeamGameATS table is a `List TeamGameATS`; SQLAlchemy
`query.filter_by(...).first()` is `List.find?`, `session.add` of a fresh row is
an append, and mutating a fetched row in place is replacing the first matching
row. `upsertRow` packages the get-or-create / mutate / persist cycle that both
snapshot and finalize perform per side. -/

/-- Replace the first element satisfying `p` with `nr` (in-place row mutation). -/
def replaceFirstBy {α : Type} (p : α → Bool) (nr : α) : List α → List α
  | [] => []
  | x :: xs => if p x then nr :: xs else x :: replaceFirstBy p nr xs

/-- Row key used by TeamGameATS.query.filter_by(game_id=..., team=...). -/
def rowKey (gid : Nat) (ts : String) : TeamGameATS → Bool :=
  fun r => r.game_id == gid && r.team == ts

/-- The fresh row built by _get_or_create_row when no row exists: empty
opponent, is_home False and, notably, closing_spread Decimal("0") (not None). -/
def newRow (gid : Nat) (ts : String) : TeamGameATS where
  game_id := gid
  team := ts
  opponent := ""
  is_home := false
  closing_spread := some 0
  line_source := none
  points_for := none
  points_against := none
  ats_result := none
  cover_margin := none

/-- app/services/ats.py _get_or_create_row: fetch the row for (game_id, team)
(with `team or ""` None-guarding) or build a fresh one. -/
def _get_or_create_row (tbl : List TeamGameATS) (game_id : Nat)
    (team : Option String) : TeamGameATS :=
  let ts := team.getD ""
  ((tbl.find? (rowKey game_id ts)).getD (newRow game_id ts))

/-- Get-or-create a row, mutate it with `f`, and persist: replace the existing
row in place, or append the freshly created one (session.add + autoflush). -/
def upsertRow (tbl : List TeamGameATS) (game_id : Nat) (team : Option String)
    (f : TeamGameATS → TeamGameATS) : List TeamGameATS :=
  let ts := team.getD ""
  match tbl.find? (rowKey game_id ts) with
  | some r => replaceFirstBy (rowKey game_id ts) (f r) tbl
  | none => tbl ++ [f (newRow game_id ts)]

/-- The HOME block of snapshot_closing_lines_for_game: set opponent, is_home,
closing_spread (the game's home spread, `or 0`) and line_source on the row. -/
def snapshotHomeUpdate (game : Game) (line_source : Option String)
    (home : TeamGameATS) : TeamGameATS :=
  { home with
    opponent := game.away_team
    is_home := true
    closing_spread := some (game.spread_home.getD 0)
    line_source := line_source }

/-- The AWAY block of snapshot_closing_lines_for_game. -/
def snapshotAwayUpdate (game : Game) (line_source : Option String)
    (away : TeamGameATS) : TeamGameATS :=
  { away with
    opponent := game.home_team
    is_home := false
    closing_spread := some (game.spread_away.getD 0)
    line_source := line_source }

/-- app/services/ats.py snapshot_closing_lines_for_game: snapshot closing
spreads for both teams when the game is locked; `game.spread_home or 0`
becomes `Option.getD 0` (a falsy Decimal("0") also yields 0). -/
def snapshot_closing_lines_for_game (tbl : List TeamGameATS) (game : Game)
    (line_source : Option String) : List TeamGameATS :=
  let tbl1 := upsertRow tbl game.id (some game.home_team)
    (snapshotHomeUpdate game line_source)
  upsertRow tbl1 game.id (some game.away_team)
    (snapshotAwayUpdate game line_source)

/-- app/services/ats.py _compute_ats:
cover_margin = (points_for + closing_spread) - points_against, classified by sign. -/
def _compute_ats (points_for points_against : Int) (closing_spread : ℚ) :
    ATSResult × ℚ :=
  let margin : ℚ := (points_for : ℚ) + closing_spread - (points_against : ℚ)
  if margin > 0 then (ATSResult.COVER, margin)
  else if margin = 0 then (ATSResult.PUSH, margin)
  else (ATSResult.NO_COVER, margin)

/-- The HOME block of finalize_ats_for_game: fill points for/against, fall
back to the game's current home spread only if the row's closing_spread is
None, then classify via _compute_ats. -/
def finalizeHomeUpdate (game : Game) (fsh fsa : Int)
    (home : TeamGameATS) : TeamGameATS :=
  let cs : Option ℚ :=
    match home.closing_spread with
    | none => some (game.spread_home.getD 0)
    | some c => some c
  let rm := _compute_ats fsh fsa (cs.getD 0)
  { home with
    opponent := game.away_team
    is_home := true
    points_for := some fsh
    points_against := some fsa
    closing_spread := cs
    ats_result := some rm.1
    cover_margin := some rm.2 }

/-- The AWAY block of finalize_ats_for_game. -/
def finalizeAwayUpdate (game : Game) (fsh fsa : Int)
    (away : TeamGameATS) : TeamGameATS :=
  let cs : Option ℚ :=
    match away.closing_spread with
    | none => some (game.spread_away.getD 0)
    | some c => some c
  let rm := _compute_ats fsa fsh (cs.getD 0)
  { away with
    opponent := game.home_team
    is_home := false
    points_for := some fsa
    points_against := some fsh
    closing_spread := cs
    ats_result := some rm.1
    cover_margin := some rm.2 }

/-- app/services/ats.py finalize_ats_for_game: when both final scores are set,
fill points_for/against, ats_result and cover_margin for both sides; a row
whose closing_spread is None falls back to the game's current spread for that
side (but a row freshly created here starts at some 0, not None). -/
def finalize_ats_for_game (tbl : List TeamGameATS) (game : Game) :
    List TeamGameATS :=
  match game.final_score_home, game.final_score_away with
  | some fsh, some fsa =>
    let tbl1 := upsertRow tbl game.id (some game.home_team)
      (finalizeHomeUpdate game fsh fsa)
    upsertRow tbl1 game.id (some game.away_team)
      (finalizeAwayUpdate game fsh fsa)
  | _, _ => tbl

/-! ### app/services/games_sync.py

Odds API event payloads become records; the `games` table becomes a
`List Game` with `query.filter_by(odds_event_id=...).one_or_none()` as
`List.find?` (the theorems carry the unique-index invariant, at most one
matching row, as a hypothesis where it matters). -/

/-- One outcome of a bookmaker market; `point := none` models an outcome whose
payload lacks the "point" key (the loop skips it and keeps searching). -/
structure OddsOutcome where
  name : String
  point : Option ℚ
deriving DecidableEq, Repr

/-- One market of a bookmaker ("spreads", "h2h", ...). -/
structure OddsMarket where
  key : String
  outcomes : List OddsOutcome
deriving DecidableEq, Repr

/-- One bookmaker entry of an odds event ("draftkings", ...). -/
structure Bookmaker where
  key : String
  markets : List OddsMarket
deriving DecidableEq, Repr

/-- An Odds API event payload: id is optional (event.get), commence_time,
home_team and away_team are required keys (KeyError otherwise). -/
structure OddsEvent where
  id : Option String
  commence_time : Int
  home_team : String
  away_team : String
  bookmakers : List Bookmaker
deriving DecidableEq, Repr

/-- games_sync.py _extract_home_spread_from_event: first DraftKings "spreads"
outcome whose name equals the event's home team and which carries a point. -/
def _extract_home_spread_from_event (event : OddsEvent) : Option ℚ :=
  event.bookmakers.findSome? (fun bm =>
    if bm.key == "draftkings" then
      bm.markets.findSome? (fun market =>
        if market.key == "spreads" then
          market.outcomes.findSome? (fun outcome =>
            if outcome.name == event.home_team then outcome.point else none)
        else none)
    else none)

/-- Lookup key for Game.query.filter_by(odds_event_id=ext_id) (filter_by with
None compares IS NULL, which Option equality mirrors). -/
def gameKey (extId : Option String) : Game → Bool :=
  fun g => g.odds_event_id == extId

/-- A fresh Game() with odds_event_id assigned; every other column is unset
(None) and spread_is_locked takes its column default False. -/
def newGame (extId : Option String) : Game where
  id := 0
  week := none
  home_team := ""
  away_team := ""
  final_score_home := none
  final_score_away := none
  spread_home := none
  spread_away := none
  odds_event_id := extId
  kickoff_at := none
  spread_is_locked := false

/-- The per-game field updates of upsert_game_from_odds_event: identity and
kickoff always overwritten, week only when force_week is given, spreads only
when the game is not locked and the event carries a DraftKings home spread
(spread_away is set to its negation). -/
def upsertTransform (event : OddsEvent) (force_week : Option Int) (g : Game) :
    Game :=
  let g1 := { g with
    home_team := event.home_team
    away_team := event.away_team
    kickoff_at := some event.commence_time }
  let g2 :=
    match force_week with
    | some w => { g1 with week := some w }
    | none => g1
  if g2.spread_is_locked then g2
  else
    match _extract_home_spread_from_event event with
    | some home_spread =>
      { g2 with spread_home := some home_spread, spread_away := some (-home_spread) }
    | none => g2

/-- games_sync.py upsert_game_from_odds_event: find the game by external event
id (or create one carrying that id), apply the field updates, persist. -/
def upsert_game_from_odds_event (dbGames : List Game) (event : OddsEvent)
    (force_week : Option Int) : List Game :=
  match dbGames.find? (gameKey event.id) with
  | some g =>
    replaceFirstBy (gameKey event.id) (upsertTransform event force_week g) dbGames
  | none => dbGames ++ [upsertTransform event force_week (newGame event.id)]

/-! ### app/services/week.py and app/services/week_utils.py

Timestamps are instants (seconds since epoch, timezone-aware in the source;
astimezone never changes the instant). The zoneinfo conversion from an instant
to its America/Denver civil day is external library behaviour, modelled as the
`localDay` component of the configuration; `week1_start` is the instant of
Week-1 Tuesday 00:00 in Denver built from the configured date. Python floor
division // and timedelta.days both floor, hence Int.fdiv. -/

/-- The configured week calendar: the Week-1 anchor instant and the
Denver-local civil-day function (zoneinfo). -/
structure WeekConfig where
  week1_start : Int
  localDay : Int → Int

/-- week.py week_for_kickoff: anything before Week-1 Tuesday 00:00 Denver is
treated as Week 1; otherwise 7-day buckets of Denver-local days since the
anchor, clamped below at 1. -/
def week_for_kickoff (cfg : WeekConfig) (kickoff_at : Int) : Int :=
  if kickoff_at < cfg.week1_start then 1
  else
    max 1 (Int.fdiv (cfg.localDay kickoff_at - cfg.localDay cfg.week1_start) 7 + 1)

/-- week.py current_week_number: current contest week for an instant, same
clamp and bucketing as week_for_kickoff. -/
def current_week_number (cfg : WeekConfig) (now : Int) : Int :=
  if now < cfg.week1_start then 1
  else
    max 1 (Int.fdiv (cfg.localDay now - cfg.localDay cfg.week1_start) 7 + 1)

/-- week_utils.py week_from_thursday: 0 (preseason) before the Week-1 Thursday
instant, else whole elapsed days (timedelta.days floors) bucketed by 7, plus 1. -/
def week_from_thursday (kickoff_at week1_thu_utc : Int) : Int :=
  if kickoff_at < week1_thu_utc then 0
  else Int.fdiv (Int.fdiv (kickoff_at - week1_thu_utc) 86400) 7 + 1

/-! ### Spec-side definitions for the refinement claims

These two definitions follow the spec wording of the scoring contract (spec
section 4.5), to be compared with the transcribed points_for_pick. -/

/-- Spec wording: prefer the precomputed ATS classification on the matching
TeamGameATS row (worth 1 for COVER, 1/2 for PUSH, 0 for NO_COVER) over
recomputing from raw scores and spread when both are available. -/
def points_for_pick_spec_preferred (pick : Pick) (game : Game)
    (row : TeamGameATS) : Option ℚ :=
  match row.ats_result with
  | some ATSResult.COVER => some 1
  | some ATSResult.PUSH => some (1/2)
  | some ATSResult.NO_COVER => some 0
  | none => points_for_pick pick game

/-- Spec wording of the recompute-only contract: 1 if the chosen team matches
the winning-against-spread side, 1/2 on a push, 0 otherwise, none ungraded. -/
def points_for_pick_spec_recomputed (pick : Pick) (game : Game) : Option ℚ :=
  match game_result_against_spread game with
  | none => none
  | some SpreadResult.push => some (1/2)
  | some SpreadResult.home =>
      some (if pick.chosen_team = game.home_team then 1 else 0)
  | some SpreadResult.away =>
      some (if pick.chosen_team = game.away_team then 1 else 0)

/-! ### Concrete instances used by counterexamples and witnesses -/

/-- A concrete calendar for the instants of C3: anchor 2025-09-04T00:00:00Z
(epoch 1756944000) with UTC civil days. -/
def anchorCfg : WeekConfig where
  week1_start := 1756944000
  localDay := fun t => Int.fdiv t 86400

/-- The kickoff instant 2025-09-03T12:00:00Z of C3, before the anchor. -/
def earlyKickoff : Int := 1756900800

/-- The C5 game: home 24, away 21, home closing spread -3, away +3. -/
def pushGame : Game where
  id := 5
  week := some 1
  home_team := "HOME"
  away_team := "AWAY"
  final_score_home := some 24
  final_score_away := some 21
  spread_home := some (-3)
  spread_away := some 3
  odds_event_id := some "push-game"
  kickoff_at := some 0
  spread_is_locked := true

/-- A graded pick-em game that ends tied: its spread result is a push. -/
def tiedPickEmGame : Game where
  id := 9
  week := some 1
  home_team := "H"
  away_team := "A"
  final_score_home := some 21
  final_score_away := some 21
  spread_home := none
  spread_away := none
  odds_event_id := some "tied"
  kickoff_at := some 0
  spread_is_locked := true

/-- A graded non-push game for the C9 witness: home wins against the spread. -/
def homeCoversGame : Game := { tiedPickEmGame with
                               final_score_home := some 30,
                               final_score_away := some 20,
                               spread_home := some (-3),
                               spread_away := some 3 }

/-- A tied game whose spread pair is the additive-inverse pair
(-1e-10, +1e-10): the margin is below the fallback epsilon 1e-9. -/
def tinySpreadGame : Game := { tiedPickEmGame with
                               spread_home := some (-(1/10000000000)),
                               spread_away := some (1/10000000000) }

/-- A game whose live spread moved after the snapshot: home +10 underdog wins
outright 30-20, so the live recomputation says home won against the spread. -/
def upsetGame : Game := { tiedPickEmGame with
                          final_score_home := some 30,
                          final_score_away := some 20,
                          spread_home := some 10,
                          spread_away := some (-10) }

/-- A graded TeamGameATS row for upsetGame's home side, snapshotted at closing
spread -15: the precomputed classification is NO_COVER (margin -5). -/
def upsetHomeRow : TeamGameATS where
  game_id := 9
  team := "H"
  opponent := "A"
  is_home := true
  closing_spread := some (-15)
  line_source := some "Manual"
  points_for := some 30
  points_against := some 20
  ats_result := some ATSResult.NO_COVER
  cover_margin := some (-5)

/-- A graded game that was never snapshotted (no TeamGameATS rows exist):
home favored by 3 wins 22-20, so the outcome differs between grading against
the true spread (-3, NO_COVER) and against zero (COVER). -/
def neverSnapGame : Game := { tiedPickEmGame with
                              final_score_home := some 22,
                              final_score_away := some 20,
                              spread_home := some (-3),
                              spread_away := some 3 }

/-- A locked game ingested from external event "ev-1", with persisted spreads
-3 / +3. -/
def lockedGame : Game := { tiedPickEmGame with
                           final_score_home := none,
                           final_score_away := none,
                           spread_home := some (-3),
                           spread_away := some 3,
                           odds_event_id := some "ev-1",
                           spread_is_locked := true }

/-- An odds event for external id "ev-1" carrying a DraftKings home spread of
-6.5 (so the away outcome is +6.5). -/
def sampleEvent : OddsEvent where
  id := some "ev-1"
  commence_time := 1757200000
  home_team := "H"
  away_team := "A"
  bookmakers :=
    [⟨"draftkings", [⟨"spreads", [⟨"H", some (-13/2)⟩, ⟨"A", some (13/2)⟩]⟩]⟩]

/-! ### Generic lemmas about the list-backed table model -/

theorem find?_replaceFirstBy_self {α : Type} (p : α → Bool) (nr : α)
    (l : List α) (r : α) (hfind : l.find? p = some r) (hnr : p nr = true) :
    (replaceFirstBy p nr l).find? p = some nr := by
  induction l with
  | nil => simp at hfind
  | cons a l ih =>
    by_cases hpa : p a = true
    · simp [replaceFirstBy, hpa, hnr]
    · rw [List.find?_cons_of_neg l hpa] at hfind
      simp [replaceFirstBy, hpa, ih hfind]

theorem find?_replaceFirstBy_other {α : Type} (p q : α → Bool) (nr : α)
    (l : List α) (hnr : q nr = false)
    (hkey : ∀ y, p y = true → q y = false) :
    (replaceFirstBy p nr l).find? q = l.find? q := by
  induction l with
  | nil => rfl
  | cons a l ih =>
    by_cases hpa : p a = true
    · have hqa : ¬ q a = true := by simp [hkey a hpa]
      simp [replaceFirstBy, hpa, hqa, hnr]
    · by_cases hqa : q a = true
      · simp [replaceFirstBy, hpa, hqa]
      · simp [replaceFirstBy, hpa, hqa, ih]

theorem replaceFirstBy_find?_eq_self {α : Type} (p : α → Bool) (l : List α)
    (r : α) (hfind : l.find? p = some r) : replaceFirstBy p r l = l := by
  induction l with
  | nil => simp at hfind
  | cons a l ih =>
    by_cases hpa : p a = true
    · rw [List.find?_cons_of_pos l hpa] at hfind
      have ha : a = r := Option.some_inj.mp hfind
      subst ha
      simp [replaceFirstBy, hpa]
    · rw [List.find?_cons_of_neg l hpa] at hfind
      simp [replaceFirstBy, hpa, ih hfind]

theorem countP_replaceFirstBy {α : Type} (p : α → Bool) (nr : α) (l : List α)
    (hnr : p nr = true) : (replaceFirstBy p nr l).countP p = l.countP p := by
  induction l with
  | nil => rfl
  | cons a l ih =>
    by_cases hpa : p a = true
    · simp [replaceFirstBy, hpa, List.countP_cons, hnr]
    · simp [replaceFirstBy, hpa, List.countP_cons, ih]

theorem find?_upsertRow_self (tbl : List TeamGameATS) (gid : Nat)
    (team : Option String) (f : TeamGameATS → TeamGameATS)
    (hf : ∀ r, (f r).game_id = r.game_id ∧ (f r).team = r.team) :
    (upsertRow tbl gid team f).find? (rowKey gid (team.getD "")) =
      some (f (_get_or_create_row tbl gid team)) := by
  cases hfind : tbl.find? (rowKey gid (team.getD "")) with
  | some r =>
    have hpr : rowKey gid (team.getD "") r = true := List.find?_some hfind
    have hpfr : rowKey gid (team.getD "") (f r) = true := by
      simp [rowKey] at hpr ⊢
      exact ⟨by rw [(hf r).1]; exact hpr.1, by rw [(hf r).2]; exact hpr.2⟩
    simp only [upsertRow, _get_or_create_row, hfind, Option.getD_some]
    exact find?_replaceFirstBy_self _ _ _ _ hfind hpfr
  | none =>
    have hpn : rowKey gid (team.getD "") (f (newRow gid (team.getD ""))) = true := by
      simp [rowKey, (hf _).1, (hf _).2, newRow]
    simp only [upsertRow, _get_or_create_row, hfind, Option.getD_none]
    rw [List.find?_append]
    simp [hfind, hpn]

theorem find?_upsertRow_other (tbl : List TeamGameATS) (gid : Nat)
    (team : Option String) (f : TeamGameATS → TeamGameATS)
    (hf : ∀ r, (f r).game_id = r.game_id ∧ (f r).team = r.team)
    (gid2 : Nat) (ts2 : String)
    (hkey : ¬ (gid = gid2 ∧ team.getD "" = ts2)) :
    (upsertRow tbl gid team f).find? (rowKey gid2 ts2) =
      tbl.find? (rowKey gid2 ts2) := by
  have hdiff : ∀ y, rowKey gid (team.getD "") y = true → rowKey gid2 ts2 y = false := by
    intro y hy
    simp [rowKey] at hy ⊢
    rintro h1 h2
    exact hkey ⟨by rw [← hy.1, h1], by rw [← hy.2, h2]⟩
  cases hfind : tbl.find? (rowKey gid (team.getD "")) with
  | some r =>
    have hpr : rowKey gid (team.getD "") r = true := List.find?_some hfind
    have hpfr : rowKey gid (team.getD "") (f r) = true := by
      simp [rowKey] at hpr ⊢
      exact ⟨by rw [(hf r).1]; exact hpr.1, by rw [(hf r).2]; exact hpr.2⟩
    simp only [upsertRow, hfind]
    exact find?_replaceFirstBy_other _ _ _ _ (hdiff _ hpfr) hdiff
  | none =>
    have hpn : rowKey gid (team.getD "") (f (newRow gid (team.getD ""))) = true := by
      simp [rowKey, (hf _).1, (hf _).2, newRow]
    simp only [upsertRow, hfind]
    rw [List.find?_append]
    simp [hdiff _ hpn]

theorem find?_upsertRow_some_self (tbl : List TeamGameATS) (gid : Nat)
    (ts : String) (f : TeamGameATS → TeamGameATS)
    (hf : ∀ r, (f r).game_id = r.game_id ∧ (f r).team = r.team) :
    (upsertRow tbl gid (some ts) f).find? (rowKey gid ts) =
      some (f (_get_or_create_row tbl gid (some ts))) :=
  find?_upsertRow_self tbl gid (some ts) f hf

theorem find?_upsertRow_some_other (tbl : List TeamGameATS) (gid : Nat)
    (ts : String) (f : TeamGameATS → TeamGameATS)
    (hf : ∀ r, (f r).game_id = r.game_id ∧ (f r).team = r.team)
    (gid2 : Nat) (ts2 : String) (hkey : ¬ (gid = gid2 ∧ ts = ts2)) :
    (upsertRow tbl gid (some ts) f).find? (rowKey gid2 ts2) =
      tbl.find? (rowKey gid2 ts2) :=
  find?_upsertRow_other tbl gid (some ts) f hf gid2 ts2 hkey

/-! ### C10: the two public week resolvers agree -/

/-- C10: for every configuration and every instant, week_for_kickoff and
current_week_number compute the same contest week: the two entry points are
the same clamp-then-7-day-bucket function of their input. -/
theorem week_for_kickoff_eq_current_week_number (cfg : WeekConfig) (t : Int) :
    week_for_kickoff cfg t = current_week_number cfg t := rfl

/-! ### C3: kickoffs before the Week-1 anchor -/

/-- C3 counterexample: at the claim's own instants (kickoff strictly before
the configured anchor), week_for_kickoff returns 1, not the preseason value 0. -/
theorem week_for_kickoff_before_anchor_ne_zero :
    earlyKickoff < anchorCfg.week1_start ∧
    week_for_kickoff anchorCfg earlyKickoff = 1 ∧
    week_for_kickoff anchorCfg earlyKickoff ≠ 0 := by
  refine ⟨by decide, by decide, by decide⟩

/-- C3 amended: week_for_kickoff clamps every kickoff strictly before the
Week-1 anchor to week 1 (the clamp-to-1 policy); the floor-to-0 preseason
policy lives in the separate week_from_thursday utility, which returns 0 for
kickoffs before its Thursday anchor. -/
theorem week_before_anchor_clamped (cfg : WeekConfig) (t thu : Int)
    (h1 : t < cfg.week1_start) (h2 : t < thu) :
    week_for_kickoff cfg t = 1 ∧ week_from_thursday t thu = 0 := by
  constructor
  · simp [week_for_kickoff, h1]
  · simp [week_from_thursday, h2]

/-- Witness for the amended C3 at the claim's concrete instants. -/
theorem week_before_anchor_clamped_witness :
    week_for_kickoff anchorCfg earlyKickoff = 1 ∧
    week_from_thursday earlyKickoff 1756944000 = 0 :=
  week_before_anchor_clamped anchorCfg earlyKickoff 1756944000
    (by decide) (by decide)

/-! ### C5: push boundary exactness -/

/-- C5: at 24-21 with home closing spread -3, both sides land exactly on
margin 0 and PUSH, and points_for_pick pays exactly 1/2 whatever team the
pick names: the arithmetic is exact at the push boundary. -/
theorem push_boundary_exact :
    _compute_ats 24 21 (-3) = (ATSResult.PUSH, 0) ∧
    _compute_ats 21 24 3 = (ATSResult.PUSH, 0) ∧
    ∀ p : Pick, points_for_pick p pushGame = some (1/2) := by
  refine ⟨by norm_num [_compute_ats], by norm_num [_compute_ats], ?_⟩
  intro p
  norm_num [points_for_pick, game_result_against_spread, pushGame, eps]

/-! ### C9: picks naming neither team -/

/-- C9 counterexample: on a graded game whose result is a push, a pick naming
neither team is paid 1/2, not the claimed 0, because the push short-circuit
runs before the team-mismatch check. -/
theorem mismatched_pick_on_push_pays_half :
    Pick.chosen_team ⟨"Nobody"⟩ ≠ tiedPickEmGame.home_team ∧
    Pick.chosen_team ⟨"Nobody"⟩ ≠ tiedPickEmGame.away_team ∧
    points_for_pick ⟨"Nobody"⟩ tiedPickEmGame = some (1/2) ∧
    points_for_pick ⟨"Nobody"⟩ tiedPickEmGame ≠ some 0 := by
  refine ⟨by decide, by decide, ?_, ?_⟩
  · norm_num [points_for_pick, game_result_against_spread, tiedPickEmGame, eps]
  · norm_num [points_for_pick, game_result_against_spread, tiedPickEmGame, eps]

/-- C9 amended: once the game is graded, a pick whose chosen_team matches
neither team is paid exactly 0 whenever the result is not a push, and exactly
1/2 on a push - in every graded case some value, never none and never a
failure. -/
theorem mismatched_pick_points (g : Game) (p : Pick) (r : SpreadResult)
    (hres : game_result_against_spread g = some r)
    (h1 : p.chosen_team ≠ g.home_team) (h2 : p.chosen_team ≠ g.away_team) :
    points_for_pick p g = some (if r = SpreadResult.push then (1/2 : ℚ) else 0) := by
  unfold points_for_pick
  rw [hres]
  by_cases hr : r = SpreadResult.push
  · simp [hr]
  · simp [hr, h1, h2]

/-- Witness for the amended C9: a mismatched pick on a graded non-push game
is paid 0. -/
theorem mismatched_pick_points_witness :
    points_for_pick ⟨"Nobody"⟩ homeCoversGame =
      some (if SpreadResult.home = SpreadResult.push then (1/2 : ℚ) else 0) := by
  have hres : game_result_against_spread homeCoversGame = some SpreadResult.home := by
    norm_num [game_result_against_spread, homeCoversGame, tiedPickEmGame, eps]
  exact mismatched_pick_points homeCoversGame ⟨"Nobody"⟩ SpreadResult.home hres
    (by decide) (by decide)

/-! ### C4: does points_for_pick prefer the precomputed ATS row? -/

/-- C4 counterexample: with a graded TeamGameATS row (ats_result NO_COVER for
the picked home team) and raw scores plus a moved live spread both available,
points_for_pick pays 1 by recomputing from the game, while the spec-side
row-preferring scorer pays 0: the code does not use the precomputed
classification. -/
theorem points_for_pick_ignores_ats_row :
    upsetHomeRow.game_id = upsetGame.id ∧
    upsetHomeRow.team = upsetGame.home_team ∧
    upsetHomeRow.ats_result = some ATSResult.NO_COVER ∧
    points_for_pick ⟨"H"⟩ upsetGame = some 1 ∧
    points_for_pick_spec_preferred ⟨"H"⟩ upsetGame upsetHomeRow = some 0 ∧
    points_for_pick ⟨"H"⟩ upsetGame ≠
      points_for_pick_spec_preferred ⟨"H"⟩ upsetGame upsetHomeRow := by
  have hpts : points_for_pick ⟨"H"⟩ upsetGame = some 1 := by
    norm_num [points_for_pick, game_result_against_spread, upsetGame,
      tiedPickEmGame, eps]
    decide
  have hrow : points_for_pick_spec_preferred ⟨"H"⟩ upsetGame upsetHomeRow
      = some 0 := by
    norm_num [points_for_pick_spec_preferred, upsetHomeRow]
  refine ⟨rfl, rfl, rfl, hpts, hrow, ?_⟩
  rw [hpts, hrow]
  norm_num

/-- C4 amended: points_for_pick never reads TeamGameATS; for every pick and
every game with distinct team names it equals the recompute-only contract
(grade from the game's current scores and spreads via
game_result_against_spread). -/
theorem points_for_pick_eq_recomputed (p : Pick) (g : Game)
    (hne : g.home_team ≠ g.away_team) :
    points_for_pick p g = points_for_pick_spec_recomputed p g := by
  unfold points_for_pick points_for_pick_spec_recomputed
  cases hres : game_result_against_spread g with
  | none => rfl
  | some r =>
    cases r with
    | push => simp
    | home => by_cases hch : p.chosen_team = g.home_team <;> simp [hch]
    | away =>
      by_cases hch : p.chosen_team = g.home_team
      · have hmis : ¬ p.chosen_team = g.away_team := by
          rw [hch]; exact hne
        simp [hch, hmis, hne]
      · by_cases hca : p.chosen_team = g.away_team
        · simp [hch, hca, Ne.symm hne]
        · simp [hch, hca]

/-- Witness for the amended C4 at a concrete pick and game. -/
theorem points_for_pick_eq_recomputed_witness :
    points_for_pick ⟨"H"⟩ upsetGame =
      points_for_pick_spec_recomputed ⟨"H"⟩ upsetGame :=
  points_for_pick_eq_recomputed ⟨"H"⟩ upsetGame (by decide)

/-! ### Field lemmas about the upsert transformation -/

theorem upsertTransform_odds_event_id (e : OddsEvent) (fw : Option Int)
    (g : Game) : (upsertTransform e fw g).odds_event_id = g.odds_event_id := by
  unfold upsertTransform
  cases fw <;> cases hex : _extract_home_spread_from_event e <;>
    by_cases hl : g.spread_is_locked <;> simp [hl]

theorem gameKey_upsertTransform (extId : Option String) (e : OddsEvent)
    (fw : Option Int) (g : Game) :
    gameKey extId (upsertTransform e fw g) = gameKey extId g := by
  simp [gameKey, upsertTransform_odds_event_id]

theorem upsertTransform_locked_fields (e : OddsEvent) (fw : Option Int)
    (g : Game) (hl : g.spread_is_locked = true) :
    (upsertTransform e fw g).spread_home = g.spread_home ∧
    (upsertTransform e fw g).spread_away = g.spread_away ∧
    (upsertTransform e fw g).home_team = e.home_team ∧
    (upsertTransform e fw g).away_team = e.away_team ∧
    (upsertTransform e fw g).kickoff_at = some e.commence_time := by
  unfold upsertTransform
  cases fw <;> simp [hl]

theorem upsertTransform_idem (e : OddsEvent) (fw : Option Int) (g : Game) :
    upsertTransform e fw (upsertTransform e fw g) = upsertTransform e fw g := by
  unfold upsertTransform
  cases fw <;> cases hex : _extract_home_spread_from_event e <;>
    by_cases hl : g.spread_is_locked <;> simp [hl, hex]

/-! ### C2: locking freezes spreads against ingestion -/

/-- C2: upserting any event for the external id of a locked game leaves the
persisted spread pair untouched while the identity fields (teams, kickoff) are
still overwritten from the event. -/
theorem locked_upsert_freezes_spreads (dbGames : List Game) (ev : OddsEvent)
    (fw : Option Int) (g0 : Game)
    (hfind : dbGames.find? (gameKey ev.id) = some g0)
    (hlock : g0.spread_is_locked = true) :
    ∃ g1,
      (upsert_game_from_odds_event dbGames ev fw).find? (gameKey ev.id)
        = some g1 ∧
      g1.spread_home = g0.spread_home ∧ g1.spread_away = g0.spread_away ∧
      g1.home_team = ev.home_team ∧ g1.away_team = ev.away_team ∧
      g1.kickoff_at = some ev.commence_time := by
  have hk0 : gameKey ev.id g0 = true := List.find?_some hfind
  have hkT : gameKey ev.id (upsertTransform ev fw g0) = true := by
    rw [gameKey_upsertTransform]
    exact hk0
  obtain ⟨h1, h2, h3, h4, h5⟩ := upsertTransform_locked_fields ev fw g0 hlock
  refine ⟨upsertTransform ev fw g0, ?_, h1, h2, h3, h4, h5⟩
  simp only [upsert_game_from_odds_event, hfind]
  exact find?_replaceFirstBy_self _ _ _ _ hfind hkT

/-- Witness for C2: the locked game keeps spreads -3/+3 although the event
carries -6.5, while kickoff and teams are resynced. -/
theorem locked_upsert_freezes_spreads_witness :
    ∃ g1,
      (upsert_game_from_odds_event [lockedGame] sampleEvent (some 2)).find?
          (gameKey sampleEvent.id) = some g1 ∧
      g1.spread_home = lockedGame.spread_home ∧
      g1.spread_away = lockedGame.spread_away ∧
      g1.home_team = sampleEvent.home_team ∧
      g1.away_team = sampleEvent.away_team ∧
      g1.kickoff_at = some sampleEvent.commence_time :=
  locked_upsert_freezes_spreads [lockedGame] sampleEvent (some 2) lockedGame
    (by rfl) rfl

/-! ### C7: idempotent upsert -/

/-- C7: under the unique-index invariant (at most one row for the external
id) and with any existing row unlocked, upserting the identical event twice
is idempotent - the second call changes nothing - and the table holds exactly
one row for that external id afterwards. -/
theorem upsert_idempotent (dbGames : List Game) (ev : OddsEvent)
    (fw : Option Int)
    (hcount : dbGames.countP (gameKey ev.id) ≤ 1)
    (hunlocked : ∀ g, dbGames.find? (gameKey ev.id) = some g →
      g.spread_is_locked = false) :
    upsert_game_from_odds_event (upsert_game_from_odds_event dbGames ev fw)
        ev fw
      = upsert_game_from_odds_event dbGames ev fw ∧
    (upsert_game_from_odds_event dbGames ev fw).countP (gameKey ev.id) = 1 := by
  cases hfind : dbGames.find? (gameKey ev.id) with
  | some g0 =>
    have hk0 : gameKey ev.id g0 = true := List.find?_some hfind
    have hkT : gameKey ev.id (upsertTransform ev fw g0) = true := by
      rw [gameKey_upsertTransform]
      exact hk0
    have hd1 : upsert_game_from_odds_event dbGames ev fw
        = replaceFirstBy (gameKey ev.id) (upsertTransform ev fw g0) dbGames := by
      simp only [upsert_game_from_odds_event, hfind]
    have hfind1 : (replaceFirstBy (gameKey ev.id) (upsertTransform ev fw g0)
          dbGames).find? (gameKey ev.id) = some (upsertTransform ev fw g0) :=
      find?_replaceFirstBy_self _ _ _ _ hfind hkT
    constructor
    · rw [hd1]
      simp only [upsert_game_from_odds_event, hfind1]
      rw [upsertTransform_idem]
      exact replaceFirstBy_find?_eq_self _ _ _ hfind1
    · rw [hd1, countP_replaceFirstBy _ _ _ hkT]
      have hpos : 0 < dbGames.countP (gameKey ev.id) :=
        List.countP_pos_iff.mpr ⟨g0, List.mem_of_find?_eq_some hfind, hk0⟩
      omega
  | none =>
    have hkN : gameKey ev.id (upsertTransform ev fw (newGame ev.id)) = true := by
      rw [gameKey_upsertTransform]
      simp [gameKey, newGame]
    have hd1 : upsert_game_from_odds_event dbGames ev fw
        = dbGames ++ [upsertTransform ev fw (newGame ev.id)] := by
      simp only [upsert_game_from_odds_event, hfind]
    have hfind1 : (dbGames ++ [upsertTransform ev fw (newGame ev.id)]).find?
        (gameKey ev.id) = some (upsertTransform ev fw (newGame ev.id)) := by
      rw [List.find?_append, hfind]
      simp [hkN]
    constructor
    · rw [hd1]
      simp only [upsert_game_from_odds_event, hfind1]
      rw [upsertTransform_idem]
      exact replaceFirstBy_find?_eq_self _ _ _ hfind1
    · rw [hd1, List.countP_append]
      have h0 : dbGames.countP (gameKey ev.id) = 0 :=
        List.countP_eq_zero.mpr (List.find?_eq_none.mp hfind)
      simp [h0, hkN]

/-- Witness for C7: upserting the sample event twice into an empty table. -/
theorem upsert_idempotent_witness :
    upsert_game_from_odds_event
        (upsert_game_from_odds_event [] sampleEvent (some 2)) sampleEvent
        (some 2)
      = upsert_game_from_odds_event [] sampleEvent (some 2) ∧
    (upsert_game_from_odds_event [] sampleEvent (some 2)).countP
        (gameKey sampleEvent.id) = 1 :=
  upsert_idempotent [] sampleEvent (some 2) (by simp) (by simp)

/-! ### C8: snapshot symmetry -/

/-- C8: when the game's spread pair are additive inverses, the snapshot leaves
a home TeamGameATS row and an away row whose closing spreads are negations of
each other (whatever rows the table already held). -/
theorem snapshot_closing_spread_symmetry (tbl : List TeamGameATS) (g : Game)
    (ls : Option String) (q : ℚ)
    (hh : g.spread_home = some q) (ha : g.spread_away = some (-q))
    (hne : g.home_team ≠ g.away_team) :
    ((snapshot_closing_lines_for_game tbl g ls).find? (rowKey g.id g.home_team)).map
        TeamGameATS.closing_spread = some (some q) ∧
    ((snapshot_closing_lines_for_game tbl g ls).find? (rowKey g.id g.away_team)).map
        TeamGameATS.closing_spread = some (some (- q)) := by
  have hk : ¬ ((g.id = g.id) ∧ (g.away_team = g.home_team)) := by
    simp
    exact Ne.symm hne
  simp only [snapshot_closing_lines_for_game]
  constructor
  · rw [find?_upsertRow_some_other _ g.id g.away_team
        (snapshotAwayUpdate g ls) (fun _ => ⟨rfl, rfl⟩) g.id g.home_team hk,
      find?_upsertRow_some_self tbl g.id g.home_team
        (snapshotHomeUpdate g ls) (fun _ => ⟨rfl, rfl⟩)]
    simp [snapshotHomeUpdate, hh]
  · rw [find?_upsertRow_some_self _ g.id g.away_team
        (snapshotAwayUpdate g ls) (fun _ => ⟨rfl, rfl⟩)]
    simp [snapshotAwayUpdate, ha]

/-- Witness for C8 at a concrete locked game (home -3 / away +3) and an empty
TeamGameATS table. -/
theorem snapshot_closing_spread_symmetry_witness :
    ((snapshot_closing_lines_for_game [] pushGame (some "Manual")).find?
        (rowKey pushGame.id pushGame.home_team)).map TeamGameATS.closing_spread
      = some (some (-3)) ∧
    ((snapshot_closing_lines_for_game [] pushGame (some "Manual")).find?
        (rowKey pushGame.id pushGame.away_team)).map TeamGameATS.closing_spread
      = some (some (-(-3))) :=
  snapshot_closing_spread_symmetry [] pushGame (some "Manual") (-3) rfl
    (by norm_num [pushGame]) (by decide)

/-! ### C6: grading a never-snapshotted game -/

/-- C6: grading a game that was never snapshotted does NOT fall back to the
game's current spread. The freshly created row starts at closing_spread 0 (the
creation default of _get_or_create_row), so the derive-from-current-spread
branch never fires: with spread_home = -3 and a 22-20 home win the persisted
home row keeps closing_spread 0 and is graded COVER, where the game's own
spread would have graded NO_COVER. -/
theorem finalize_never_snapshotted_keeps_zero_spread :
    neverSnapGame.spread_home = some (-3) ∧
    ((finalize_ats_for_game [] neverSnapGame).find? (rowKey 9 "H")).map
        TeamGameATS.closing_spread = some (some 0) ∧
    ((finalize_ats_for_game [] neverSnapGame).find? (rowKey 9 "H")).map
        TeamGameATS.closing_spread ≠ some (some (-3)) ∧
    ((finalize_ats_for_game [] neverSnapGame).find? (rowKey 9 "H")).map
        TeamGameATS.ats_result = some (some ATSResult.COVER) ∧
    (_compute_ats 22 20 (-3)).1 = ATSResult.NO_COVER := by
  have htbl : finalize_ats_for_game [] neverSnapGame =
      [{ newRow 9 "H" with
         opponent := "A", is_home := true,
         points_for := some 22, points_against := some 20,
         closing_spread := some 0,
         ats_result := some ATSResult.COVER, cover_margin := some 2 },
       { newRow 9 "A" with
         opponent := "H", is_home := false,
         points_for := some 20, points_against := some 22,
         closing_spread := some 0,
         ats_result := some ATSResult.NO_COVER, cover_margin := some (-2) }] := by
    have hHA : ¬ ("H" : String) = "A" := by decide
    have hAH : ¬ ("A" : String) = "H" := by decide
    norm_num [finalize_ats_for_game, finalizeHomeUpdate, finalizeAwayUpdate,
      neverSnapGame, tiedPickEmGame, upsertRow, _get_or_create_row, rowKey,
      newRow, _compute_ats, hHA, hAH]
  refine ⟨rfl, ?_, ?_, ?_, ?_⟩
  · rw [htbl]; norm_num [rowKey, newRow]
  · rw [htbl]; norm_num [rowKey, newRow]
  · rw [htbl]; norm_num [rowKey, newRow]
  · norm_num [_compute_ats]

/-! ### C1: agreement of the ATS engine and the live fallback -/

theorem spread_if_sub (sh : ℚ) :
    (if sh < 0 then sh else 0) - (if -sh < 0 then -sh else 0) = sh := by
  rcases lt_trichotomy sh 0 with h | h | h
  · rw [if_pos h, if_neg (by linarith)]
    ring
  · simp [h]
  · rw [if_neg (by linarith), if_pos (by linarith)]
    ring

/-- For a game with both scores and an additive-inverse spread pair, the
fallback classification is determined by comparing the home cover margin
against the epsilon band. -/
theorem game_result_char (g : Game) (hs as2 : Int) (sh : ℚ)
    (h1 : g.final_score_home = some hs) (h2 : g.final_score_away = some as2)
    (h3 : g.spread_home = some sh) (h4 : g.spread_away = some (-sh)) :
    game_result_against_spread g =
      some (if (hs : ℚ) + sh - (as2 : ℚ) > eps then SpreadResult.home
            else if (hs : ℚ) + sh - (as2 : ℚ) < -eps then SpreadResult.away
            else SpreadResult.push) := by
  rcases g with ⟨i, w, ht, at2, fsh, fsa, sph, spa, oid, ko, lk⟩
  dsimp only at h1 h2 h3 h4
  subst h1
  subst h2
  subst h3
  subst h4
  have hA : ((hs : ℚ) + (if sh < 0 then sh else 0) >
      (as2 : ℚ) + (if -sh < 0 then -sh else 0) + eps) ↔
      ((hs : ℚ) + sh - (as2 : ℚ) > eps) := by
    have hd := spread_if_sub sh
    constructor <;> intro h <;> linarith
  have hB : ((as2 : ℚ) + (if -sh < 0 then -sh else 0) >
      (hs : ℚ) + (if sh < 0 then sh else 0) + eps) ↔
      ((hs : ℚ) + sh - (as2 : ℚ) < -eps) := by
    have hd := spread_if_sub sh
    constructor <;> intro h <;> linarith
  simp only [game_result_against_spread]
  simp only [hA, hB]

/-- The ATS classification is determined by the sign of the cover margin. -/
theorem compute_ats_fst_eq (pf pa : Int) (cs : ℚ) :
    (_compute_ats pf pa cs).1 =
      (if (pf : ℚ) + cs - (pa : ℚ) > 0 then ATSResult.COVER
       else if (pf : ℚ) + cs - (pa : ℚ) = 0 then ATSResult.PUSH
       else ATSResult.NO_COVER) := by
  simp only [_compute_ats, apply_ite Prod.fst]

/-- Half-point margins clear the epsilon band: a positive margin that is an
integer multiple of one half exceeds 1e-9. -/
theorem half_point_gt_eps (k : Int) (m : ℚ) (hm : m = (k : ℚ)/2) :
    (m > eps) ↔ (m > 0) := by
  constructor
  · intro h
    have : (0:ℚ) < eps := by norm_num [eps]
    linarith
  · intro h
    have hk0 : (0 : ℚ) < (k : ℚ) := by
      rw [hm] at h
      linarith
    have hk1 : (1 : Int) ≤ k := by
      have : (0 : Int) < k := by exact_mod_cast hk0
      omega
    have hk1q : (1 : ℚ) ≤ (k : ℚ) := by exact_mod_cast hk1
    have : m ≥ 1/2 := by
      rw [hm]
      linarith
    have heps : eps < 1/2 := by norm_num [eps]
    linarith

/-- C1 counterexample: scores 21-21 with the additive-inverse spread pair
(-1e-10, +1e-10). The fallback's epsilon band calls it a push, but the exact
ATS engine classifies the away side COVER, so the away side covers while the
fallback does not return away. -/
theorem ats_fallback_disagree_tiny_spread :
    tinySpreadGame.spread_home = some (-(1/10000000000)) ∧
    tinySpreadGame.spread_away = some (1/10000000000) ∧
    game_result_against_spread tinySpreadGame = some SpreadResult.push ∧
    (_compute_ats 21 21 (1/10000000000)).1 = ATSResult.COVER ∧
    game_result_against_spread tinySpreadGame ≠ some SpreadResult.away := by
  have hres : game_result_against_spread tinySpreadGame
      = some SpreadResult.push := by
    norm_num [game_result_against_spread, tinySpreadGame, tiedPickEmGame, eps]
  refine ⟨rfl, rfl, hres, ?_, ?_⟩
  · norm_num [_compute_ats]
  · rw [hres]
    simp

/-- C1 amended: for every game with both scores and an additive-inverse
spread pair whose home spread is an integer multiple of one half (every real
betting line), the ATS engine and the live fallback agree side by side: home
COVERs iff the fallback says home, both sides PUSH iff it says push, and away
COVERs iff it says away. -/
theorem ats_fallback_agree_half_point (g : Game) (hs as2 : Int) (sh : ℚ)
    (n : Int) (h1 : g.final_score_home = some hs)
    (h2 : g.final_score_away = some as2)
    (h3 : g.spread_home = some sh) (h4 : g.spread_away = some (-sh))
    (h5 : sh = (n : ℚ)/2) :
    ((_compute_ats hs as2 sh).1 = ATSResult.COVER ↔
      game_result_against_spread g = some SpreadResult.home) ∧
    (((_compute_ats hs as2 sh).1 = ATSResult.PUSH ∧
      (_compute_ats as2 hs (-sh)).1 = ATSResult.PUSH) ↔
      game_result_against_spread g = some SpreadResult.push) ∧
    ((_compute_ats as2 hs (-sh)).1 = ATSResult.COVER ↔
      game_result_against_spread g = some SpreadResult.away) := by
  have hchar := game_result_char g hs as2 sh h1 h2 h3 h4
  have hhome := compute_ats_fst_eq hs as2 sh
  have haway := compute_ats_fst_eq as2 hs (-sh)
  set m : ℚ := (hs : ℚ) + sh - (as2 : ℚ) with hmdef
  have hawaym : (as2 : ℚ) + -sh - (hs : ℚ) = -m := by
    rw [hmdef]
    ring
  rw [hawaym] at haway
  have hm2 : m = ((2*hs + n - 2*as2 : Int) : ℚ)/2 := by
    rw [hmdef, h5]
    push_cast
    ring
  have hmneg : -m = ((-(2*hs + n - 2*as2) : Int) : ℚ)/2 := by
    rw [hm2]
    push_cast
    ring
  have hgt_iff := half_point_gt_eps _ m hm2
  have hlt_iff : (m < -eps) ↔ (m < 0) := by
    have h0 := half_point_gt_eps _ (-m) hmneg
    constructor <;> intro h <;> [exact (by linarith [h0.mp (by linarith)]); exact (by linarith [h0.mpr (by linarith)])]
  rw [hchar, hhome, haway]
  rcases lt_trichotomy m 0 with hc | hc | hc
  · have e1 : ¬ (m > eps) := by
      rw [hgt_iff]
      linarith
    have e2 : m < -eps := hlt_iff.mpr hc
    have e3 : ¬ (m > 0) := by linarith
    have e4 : ¬ (m = 0) := by linarith
    have e5 : -m > 0 := by linarith
    simp [e1, e2, e3, e4, e5]
  · have e1 : ¬ (m > eps) := by
      rw [hgt_iff, hc]
      simp
    have e2 : ¬ (m < -eps) := by
      rw [hlt_iff, hc]
      simp
    have e5 : ¬ (-m > 0) := by
      rw [hc]
      simp
    have e6 : -m = 0 := by
      rw [hc]
      simp
    have he1 : ¬ (eps < 0) := by norm_num [eps]
    have he2 : (0 : ℚ) ≤ eps := by norm_num [eps]
    simp [e1, e2, hc, e5, e6, he1, he2]
  · have e1 : m > eps := hgt_iff.mpr hc
    have e3 : ¬ (m = 0) := by linarith
    have e5 : ¬ (-m > 0) := by linarith
    have e6 : ¬ (-m = 0) := by
      intro h0
      have : m = 0 := by linarith
      exact e3 this
    simp [e1, hc, e3, e5, e6]

/-- Witness for the amended C1 at scores 30-20 with home spread -3 =
(-6)/2. -/
theorem ats_fallback_agree_half_point_witness :
    ((_compute_ats 30 20 (-3)).1 = ATSResult.COVER ↔
      game_result_against_spread homeCoversGame = some SpreadResult.home) ∧
    (((_compute_ats 30 20 (-3)).1 = ATSResult.PUSH ∧
      (_compute_ats 20 30 (-(-3))).1 = ATSResult.PUSH) ↔
      game_result_against_spread homeCoversGame = some SpreadResult.push) ∧
    ((_compute_ats 20 30 (-(-3))).1 = ATSResult.COVER ↔
      game_result_against_spread homeCoversGame = some SpreadResult.away) :=
  ats_fallback_agree_half_point homeCoversGame 30 20 (-3) (-6) rfl rfl rfl
    (by norm_num [homeCoversGame, tiedPickEmGame]) (by norm_num)

end Supercontest
